import Mathlib

/-!
Verification of the request-handling core of `homedns` (`src/homedns/handlers.py`).

Byte strings are modelled as `List Nat` (each element one byte value).
Python exceptions are modelled with `Except`/`Option`; the network and the
external collaborators (`dns_response`, the socket layer) are modelled as
explicit parameters describing the outcome each call would produce, so the
handler code itself is embedded as a pure function over those outcomes.
-/

set_option autoImplicit false

namespace HomeDNS

/-- The byte values stripped by Python's argument-free `bytes.strip()`:
ASCII whitespace `\t \n \x0b \x0c \r` and the space `0x20`. -/
def isPySpace (b : Nat) : Bool :=
  b == 9 || b == 10 || b == 11 || b == 12 || b == 13 || b == 32

/-- Python `data.strip()` on a byte string: remove leading and trailing
ASCII-whitespace bytes. -/
def pstrip (l : List Nat) : List Nat :=
  ((l.dropWhile isPySpace).reverse.dropWhile isPySpace).reverse

/-- The distinct exceptions `TCPRequestHandler.get_data` can raise.
`structError` is the `struct.error` raised by `struct.unpack(">H", data[:2])`
when fewer than 2 bytes remain after stripping; `wrongSize` is
`Exception("Wrong size of TCP packet")`, raised when the declared size is
smaller than the remaining payload; `tooBig` is
`Exception("Too big TCP packet")`, raised when the declared size is larger
than the remaining payload. -/
inductive TCPDecodeError
  | structError
  | wrongSize
  | tooBig
  deriving DecidableEq

/-- `TCPRequestHandler.get_data`, applied to the bytes returned by
`self.request.recv(8192)`:
`data = recv.strip()`; `sz = struct.unpack(">H", data[:2])[0]`;
raise on `sz < len(data) - 2` or `sz > len(data) - 2`; return `data[2:]`. -/
def get_data_tcp (recvd : List Nat) : Except TCPDecodeError (List Nat) :=
  match pstrip recvd with
  | b0 :: b1 :: rest =>
    let sz := b0 * 256 + b1
    if sz < rest.length then .error .wrongSize
    else if sz > rest.length then .error .tooBig
    else .ok rest
  | _ => .error .structError

/-- `struct.pack(">H", n)`: two big-endian bytes, or `none` for the
`struct.error` raised when `n` does not fit in 16 bits. -/
def pack_be16 (n : Nat) : Option (List Nat) :=
  if n < 65536 then some [n / 256, n % 256] else none

/-- The bytes `TCPRequestHandler.send_data` writes to the stream:
`sz = struct.pack(">H", len(data))`, then `sendall(sz + data)`. -/
def send_data_tcp (d : List Nat) : Option (List Nat) :=
  (pack_be16 d.length).map (fun sz => sz ++ d)

example : get_data_tcp [0, 2, 7, 8] = .ok [7, 8] := rfl
example : get_data_tcp [0, 1, 7, 8] = .error .wrongSize := rfl
example : get_data_tcp [0, 3, 7, 8] = .error .tooBig := rfl
example : get_data_tcp [32, 0] = .error .structError := rfl
example : send_data_tcp [7, 8] = some [0, 2, 7, 8] := rfl
example : get_data_tcp [0, 1, 32] = .error .tooBig := rfl

/-! ### Forwarder (`forward_roots` of the TCP and UDP handlers)

The socket layer is abstracted by listing, for each configured upstream
target in order, the outcome its attempt would produce.  Each loop
iteration opens a fresh socket before anything else, so the number of
iterations entered equals the number of sockets opened. -/

/-- Outcome of one TCP forwarding attempt.
`connectFail`: `sock.connect` raises `OSError` (caught: log, close, continue).
`sendRecvFail`: connect succeeds but the subsequent `struct.pack`,
`sock.sendall` or `sock.recv` in the `else:` clause raises (NOT caught by the
`try` around `connect`).
`reply r`: connect succeeds and `sock.recv(8192)` returns `r`. -/
inductive TCPTargetBehavior
  | connectFail
  | sendRecvFail
  | reply (r : List Nat)
  deriving DecidableEq

/-- Outcome of one UDP forwarding attempt.
`ioFail`: `sock.sendto` or `sock.recv` raises `OSError` (caught: log,
continue).  `reply r`: both succeed and `sock.recv(8192)` returns `r`. -/
inductive UDPTargetBehavior
  | ioFail
  | reply (r : List Nat)
  deriving DecidableEq

/-- Observable result of one `forward_roots` call: how many upstream sockets
were opened, what (if anything) was relayed back to the requester, and
whether an exception escaped the forwarding loop. -/
structure FwdRun where
  socketsOpened : Nat
  relayed : Option (List Nat)
  escaped : Bool
  deriving DecidableEq

/-- `TCPRequestHandler.forward_roots`: iterate the targets in order; a
connect failure is logged and the loop continues; after a successful connect
the query is sent framed, one reply is read, relayed to the requester via
`self.request.sendall(recv)` and the loop breaks — but a failure in that
unguarded region propagates out of the loop. -/
def forward_roots_tcp : List TCPTargetBehavior → FwdRun
  | [] => ⟨0, none, false⟩
  | .connectFail :: rest =>
    let r := forward_roots_tcp rest
    ⟨r.socketsOpened + 1, r.relayed, r.escaped⟩
  | .sendRecvFail :: _ => ⟨1, none, true⟩
  | .reply r :: _ => ⟨1, some r, false⟩

/-- `UDPRequestHandler.forward_roots`: iterate the targets in order; both
`sendto` and `recv` are inside the `try`, so any `OSError` (timeout
included) is logged and the loop continues; on success the reply is relayed
via `self.request[1].sendto(recv, self.client_address)` and the loop
breaks. -/
def forward_roots_udp : List UDPTargetBehavior → FwdRun
  | [] => ⟨0, none, false⟩
  | .ioFail :: rest =>
    let r := forward_roots_udp rest
    ⟨r.socketsOpened + 1, r.relayed, r.escaped⟩
  | .reply r :: _ => ⟨1, some r, false⟩

example : forward_roots_tcp [.connectFail, .reply [5]] = ⟨2, some [5], false⟩ := rfl
example : forward_roots_tcp [.sendRecvFail, .reply [5]] = ⟨1, none, true⟩ := rfl
example : forward_roots_udp [.ioFail, .reply [5], .ioFail] = ⟨2, some [5], false⟩ := rfl

/-! ### Request Dispatcher (`BaseRequestHandler.handle`)

`handle` first computes the denylist via `get_denied_types` (OUTSIDE the
`try:` block), then inside the `try` reads the query with `get_data`, calls
the external collaborator `dns_response(data, db_path, proto, denylist)` and
branches on the returned status code; every exception raised inside the
`try` is logged via `traceback.print_exc` and swallowed.  Each collaborator
call is modelled by the outcome it would produce: `Except Fault` results,
with `dns_response` a function of the query bytes and the denylist (the
`db_path` and transport tag are fixed inside the collaborator). -/

/-- An abstract Python exception, distinguishable by a tag. -/
inductive Fault
  | exc (n : Nat)
  deriving DecidableEq

/-- Observable interaction of one dispatch cycle with the outside world:
`send d` records one `send_data(d)` invocation, `forward q` one
`forward_roots(q)` invocation. -/
inductive Event
  | send (d : List Nat)
  | forward (q : List Nat)
  deriving DecidableEq

/-- Outcomes of the collaborator calls one dispatch cycle makes, in the
order `handle` performs them. -/
structure Collab where
  get_denied_types : Except Fault (List String)
  get_data : Except Fault (List Nat)
  dns_response : List Nat → List String → Except Fault (Int × Option (List Nat))
  send_data : List Nat → Except Fault Unit
  forward_roots : List Nat → Except Fault Unit

/-- The body of the `try:` block of `handle`: the events performed, and the
exception (if any) that reaches the `except Exception:` handler.  An event
is recorded when the corresponding call is made, whether or not that call
itself then raises. -/
def try_body (c : Collab) (denylist : List String) : List Event × Option Fault :=
  match c.get_data with
  | .error f => ([], some f)
  | .ok data =>
    match c.dns_response data denylist with
    | .error f => ([], some f)
    | .ok (retcode, retdata) =>
      if retcode = 0 then
        match retdata with
        | some d =>
          match c.send_data d with
          | .ok _ => ([Event.send d], none)
          | .error f => ([Event.send d], some f)
        | none => ([], none)
      else if retcode = 1 then
        match c.forward_roots data with
        | .ok _ => ([Event.forward data], none)
        | .error f => ([Event.forward data], some f)
      else if retcode = 2 then
        ([], none)
      else
        ([], none)

/-- `BaseRequestHandler.handle`: `.ok events` when the cycle runs to the
catch-all boundary (any in-`try` exception logged and swallowed),
`.error f` when an exception escapes `handle` itself — which happens exactly
when `get_denied_types`, executed before the `try:` block, raises. -/
def handle (c : Collab) : Except Fault (List Event) :=
  match c.get_denied_types with
  | .error f => .error f
  | .ok denylist => .ok (try_body c denylist).1

/-- `BaseRequestHandler.get_denied_types`: linear scan of the configured
`(ip, type)` denylist, appending the type of every rule whose IP equals the
client's IP. -/
def get_denied_types (search_ip : String) (client_denylist : List (String × String)) :
    List String :=
  client_denylist.foldl (fun ret p => if p.1 = search_ip then ret ++ [p.2] else ret) []

example :
    get_denied_types "IP_A" [("IP_A", "A"), ("IP_A", "AAAA"), ("IP_B", "MX")] =
      ["A", "AAAA"] := rfl
example : get_denied_types "IP_C" [("IP_A", "A"), ("IP_A", "AAAA"), ("IP_B", "MX")] = [] := rfl
example : get_denied_types "IP_A" [("IP_A", "A"), ("IP_A", "A")] = ["A", "A"] := rfl

/-! ### Transport framing: C2, C3, C9 -/

/-- `get_data` on received bytes whose stripped form has at least two bytes
reduces to the size check on `sz = b0 * 256 + b1`. -/
lemma get_data_tcp_of_pstrip (recvd : List Nat) (b0 b1 : Nat) (rest : List Nat)
    (h : pstrip recvd = b0 :: b1 :: rest) :
    get_data_tcp recvd =
      if b0 * 256 + b1 < rest.length then .error .wrongSize
      else if b0 * 256 + b1 > rest.length then .error .tooBig
      else .ok rest := by
  unfold get_data_tcp
  rw [h]

/-- C2 (counterexample): the claim fails for the query `[0x20]` (a single
space byte): encoding yields the frame `[0, 1, 32]`, but decode strips the
trailing whitespace byte before parsing, so the size check fails and the
round trip does not return the query. -/
theorem tcp_roundtrip_cex :
    send_data_tcp [32] = some [0, 1, 32] ∧
    get_data_tcp [0, 1, 32] = .error .tooBig ∧
    get_data_tcp [0, 1, 32] ≠ .ok [32] := by
  refine ⟨rfl, rfl, ?_⟩
  intro h
  have h2 : (Except.error TCPDecodeError.tooBig : Except TCPDecodeError (List Nat)) =
      Except.ok [32] := h
  exact Except.noConfusion h2

/-- C2 (amended): `decode (encode query) = query` holds for every query
whose length fits the 2-byte header and whose encoded frame is unchanged by
the receiver's whitespace strip; frames that begin or end with ASCII
whitespace bytes are corrupted by the strip and need not round-trip. -/
theorem tcp_roundtrip_strip_invariant (d enc : List Nat)
    (henc : send_data_tcp d = some enc) (hstrip : pstrip enc = enc) :
    get_data_tcp enc = .ok d := by
  unfold send_data_tcp pack_be16 at henc
  by_cases hlen : d.length < 65536
  · rw [if_pos hlen] at henc
    simp only [Option.map_some'] at henc
    injection henc with henc
    subst henc
    rw [get_data_tcp_of_pstrip _ (d.length / 256) (d.length % 256) d (by simpa using hstrip)]
    have hdm : d.length / 256 * 256 + d.length % 256 = d.length := by omega
    simp [hdm]
  · rw [if_neg hlen] at henc
    simp at henc

/-- C2 (witness): the query `[65]` satisfies both side conditions and
round-trips. -/
theorem tcp_roundtrip_strip_invariant_witness : get_data_tcp [0, 1, 65] = .ok [65] :=
  tcp_roundtrip_strip_invariant [65] [0, 1, 65] rfl rfl

/-- C3: on received bytes whose stripped contents start with two length
bytes encoding `sz = b0 * 256 + b1`, decode succeeds with the payload after
the 2-byte header if and only if `sz` equals the payload length; a shorter
payload fails with the undersized-packet error (the source's
`Exception("Too big TCP packet")`, constructor `tooBig`), a longer one with
the oversized-packet error (`Exception("Wrong size of TCP packet")`,
constructor `wrongSize`), and the two errors are distinct. -/
theorem tcp_decode_size_validation (recvd : List Nat) (b0 b1 : Nat) (rest : List Nat)
    (h : pstrip recvd = b0 :: b1 :: rest) :
    (get_data_tcp recvd = .ok rest ↔ b0 * 256 + b1 = rest.length) ∧
    (rest.length < b0 * 256 + b1 → get_data_tcp recvd = .error .tooBig) ∧
    (rest.length > b0 * 256 + b1 → get_data_tcp recvd = .error .wrongSize) ∧
    TCPDecodeError.tooBig ≠ TCPDecodeError.wrongSize := by
  have hg := get_data_tcp_of_pstrip recvd b0 b1 rest h
  refine ⟨?_, ?_, ?_, by decide⟩
  · rcases Nat.lt_trichotomy (b0 * 256 + b1) rest.length with hlt | heq | hgt
    · rw [hg, if_pos hlt]
      constructor
      · intro hc; exact absurd hc (by simp)
      · intro hc; omega
    · rw [hg, if_neg (by omega), if_neg (by omega)]
      simp [heq]
    · rw [hg, if_neg (by omega), if_pos hgt]
      constructor
      · intro hc; exact absurd hc (by simp)
      · intro hc; omega
  · intro hlt
    rw [hg, if_neg (by omega), if_pos (by omega)]
  · intro hgt
    rw [hg, if_pos (by omega)]

/-- C3 (witness): the minimal valid frame `[0, 0]` (declared size 0, empty
payload). -/
theorem tcp_decode_size_validation_witness :
    (get_data_tcp [0, 0] = .ok [] ↔ 0 * 256 + 0 = ([] : List Nat).length) ∧
    (([] : List Nat).length < 0 * 256 + 0 → get_data_tcp [0, 0] = .error .tooBig) ∧
    (([] : List Nat).length > 0 * 256 + 0 → get_data_tcp [0, 0] = .error .wrongSize) ∧
    TCPDecodeError.tooBig ≠ TCPDecodeError.wrongSize :=
  tcp_decode_size_validation [0, 0] 0 0 [] rfl

/-- C9: when the stripped read contents hold fewer than two bytes (an empty
read included), TCP decode always fails while unpacking the 2-byte length
header, with the `struct.error` — an error distinct from both declared
size-mismatch errors. -/
theorem tcp_decode_short_read (recvd : List Nat) (h : (pstrip recvd).length < 2) :
    get_data_tcp recvd = .error .structError ∧
    TCPDecodeError.structError ≠ .tooBig ∧
    TCPDecodeError.structError ≠ .wrongSize := by
  refine ⟨?_, by decide, by decide⟩
  unfold get_data_tcp
  rcases hp : pstrip recvd with _ | ⟨a, _ | ⟨b, r⟩⟩
  · rfl
  · rfl
  · rw [hp] at h
    simp only [List.length_cons] at h
    omega

/-- C9 (witness): the empty read. -/
theorem tcp_decode_short_read_witness :
    get_data_tcp [] = .error .structError ∧
    TCPDecodeError.structError ≠ .tooBig ∧
    TCPDecodeError.structError ≠ .wrongSize :=
  tcp_decode_short_read [] (by decide)

/-! ### Forwarder: C4, C5, C10 -/

/-- One-step equation: a connect-failing TCP target opens (and closes) one
socket and the loop carries on. -/
lemma forward_roots_tcp_connectFail (l : List TCPTargetBehavior) :
    forward_roots_tcp (TCPTargetBehavior.connectFail :: l) =
      ⟨(forward_roots_tcp l).socketsOpened + 1,
       (forward_roots_tcp l).relayed, (forward_roots_tcp l).escaped⟩ := rfl

/-- A run of connect-failing TCP targets is skipped: each opens (and closes)
one socket and the loop carries on with the remaining targets. -/
lemma forward_roots_tcp_skip (pre rest : List TCPTargetBehavior)
    (h : ∀ t ∈ pre, t = TCPTargetBehavior.connectFail)
    (s : Nat) (rel : Option (List Nat)) (esc : Bool)
    (hr : forward_roots_tcp rest = ⟨s, rel, esc⟩) :
    forward_roots_tcp (pre ++ rest) = ⟨pre.length + s, rel, esc⟩ := by
  induction pre with
  | nil => simpa using hr
  | cons a t ih =>
    have ha : a = TCPTargetBehavior.connectFail := h a (by simp)
    subst ha
    have ih' := ih (fun x hx => h x (by simp [hx]))
    rw [List.cons_append, forward_roots_tcp_connectFail, ih']
    simp only [List.length_cons, FwdRun.mk.injEq]
    exact ⟨by omega, trivial, trivial⟩

/-- One-step equation: an I/O-failing UDP target opens one socket and the
loop carries on. -/
lemma forward_roots_udp_ioFail (l : List UDPTargetBehavior) :
    forward_roots_udp (UDPTargetBehavior.ioFail :: l) =
      ⟨(forward_roots_udp l).socketsOpened + 1,
       (forward_roots_udp l).relayed, (forward_roots_udp l).escaped⟩ := rfl

/-- A run of I/O-failing UDP targets is skipped: each opens one socket and
the loop carries on with the remaining targets. -/
lemma forward_roots_udp_skip (pre rest : List UDPTargetBehavior)
    (h : ∀ t ∈ pre, t = UDPTargetBehavior.ioFail)
    (s : Nat) (rel : Option (List Nat)) (esc : Bool)
    (hr : forward_roots_udp rest = ⟨s, rel, esc⟩) :
    forward_roots_udp (pre ++ rest) = ⟨pre.length + s, rel, esc⟩ := by
  induction pre with
  | nil => simpa using hr
  | cons a t ih =>
    have ha : a = UDPTargetBehavior.ioFail := h a (by simp)
    subst ha
    have ih' := ih (fun x hx => h x (by simp [hx]))
    rw [List.cons_append, forward_roots_udp_ioFail, ih']
    simp only [List.length_cons, FwdRun.mk.injEq]
    exact ⟨by omega, trivial, trivial⟩

/-- C4 (counterexample): TCP targets `[sendRecvFail, reply [7]]` — the first
target connects but its receive fails (e.g. a receive timeout); the
exception escapes the forwarding loop, the second target is never attempted
and nothing is relayed, refuting "proceed to the next target without
raising an error out of the forwarding loop". -/
theorem tcp_recv_failure_escapes_cex :
    forward_roots_tcp [.sendRecvFail, .reply [7]] = ⟨1, none, true⟩ ∧
    forward_roots_tcp [.sendRecvFail, .reply [7]] ≠ ⟨2, some [7], false⟩ :=
  ⟨rfl, by decide⟩

/-- C4 (amended): per-target failure handling is transport-dependent — a
TCP connect failure and any UDP send/receive failure (timeout included) are
recovered and the next target in order is tried, but a TCP send/receive
failure after a successful connect (a receive timeout included) raises out
of the forwarding loop, abandoning all remaining targets with nothing
relayed. -/
theorem forward_per_target_failure_handling :
    (∀ pre rest, (∀ t ∈ pre, t = TCPTargetBehavior.connectFail) →
      forward_roots_tcp (pre ++ rest) =
        ⟨pre.length + (forward_roots_tcp rest).socketsOpened,
         (forward_roots_tcp rest).relayed, (forward_roots_tcp rest).escaped⟩) ∧
    (∀ pre rest, (∀ t ∈ pre, t = UDPTargetBehavior.ioFail) →
      forward_roots_udp (pre ++ rest) =
        ⟨pre.length + (forward_roots_udp rest).socketsOpened,
         (forward_roots_udp rest).relayed, (forward_roots_udp rest).escaped⟩) ∧
    (∀ pre rest, (∀ t ∈ pre, t = TCPTargetBehavior.connectFail) →
      forward_roots_tcp (pre ++ TCPTargetBehavior.sendRecvFail :: rest) =
        ⟨pre.length + 1, none, true⟩) := by
  refine ⟨?_, ?_, ?_⟩
  · intro pre rest h
    cases hr : forward_roots_tcp rest with
    | mk s rel esc => rw [forward_roots_tcp_skip pre rest h s rel esc hr]
  · intro pre rest h
    cases hr : forward_roots_udp rest with
    | mk s rel esc => rw [forward_roots_udp_skip pre rest h s rel esc hr]
  · intro pre rest h
    exact forward_roots_tcp_skip pre (TCPTargetBehavior.sendRecvFail :: rest) h 1 none true rfl

/-- C4 (amended, witness): one recovered connect failure before a reply on
TCP, one recovered I/O failure before a reply on UDP, and one escaping TCP
receive failure that abandons a later healthy target. -/
theorem forward_per_target_failure_handling_witness :
    forward_roots_tcp [.connectFail, .reply [5]] = ⟨2, some [5], false⟩ ∧
    forward_roots_udp [.ioFail, .reply [6]] = ⟨2, some [6], false⟩ ∧
    forward_roots_tcp [.connectFail, .sendRecvFail, .reply [7]] = ⟨2, none, true⟩ :=
  ⟨forward_per_target_failure_handling.1 [.connectFail] [.reply [5]] (by decide),
   forward_per_target_failure_handling.2.1 [.ioFail] [.reply [6]] (by decide),
   forward_per_target_failure_handling.2.2 [.connectFail] [.reply [7]] (by decide)⟩

/-- C5: targets are tried strictly in declared order; the first target that
yields a reply has it relayed to the requester and no later target is
attempted (exactly as many sockets are opened as targets tried); and when
no target yields a reply, nothing is relayed to the requester. -/
theorem forward_first_reply_wins :
    (∀ pre r post, (∀ t ∈ pre, t = TCPTargetBehavior.connectFail) →
      forward_roots_tcp (pre ++ TCPTargetBehavior.reply r :: post) =
        ⟨pre.length + 1, some r, false⟩) ∧
    (∀ pre r post, (∀ t ∈ pre, t = UDPTargetBehavior.ioFail) →
      forward_roots_udp (pre ++ UDPTargetBehavior.reply r :: post) =
        ⟨pre.length + 1, some r, false⟩) ∧
    (∀ ts, (∀ t ∈ ts, ∀ r, t ≠ TCPTargetBehavior.reply r) →
      (forward_roots_tcp ts).relayed = none) ∧
    (∀ ts, (∀ t ∈ ts, ∀ r, t ≠ UDPTargetBehavior.reply r) →
      (forward_roots_udp ts).relayed = none) := by
  refine ⟨?_, ?_, ?_, ?_⟩
  · intro pre r post h
    exact forward_roots_tcp_skip pre (TCPTargetBehavior.reply r :: post) h 1 (some r) false rfl
  · intro pre r post h
    exact forward_roots_udp_skip pre (UDPTargetBehavior.reply r :: post) h 1 (some r) false rfl
  · intro ts h
    induction ts with
    | nil => rfl
    | cons a t ih =>
      cases a with
      | connectFail =>
        simp only [forward_roots_tcp]
        exact ih (fun x hx r => h x (by simp [hx]) r)
      | sendRecvFail => rfl
      | reply r => exact absurd rfl (h _ (by simp) r)
  · intro ts h
    induction ts with
    | nil => rfl
    | cons a t ih =>
      cases a with
      | ioFail =>
        simp only [forward_roots_udp]
        exact ih (fun x hx r => h x (by simp [hx]) r)
      | reply r => exact absurd rfl (h _ (by simp) r)

/-- C5 (witness): concrete runs for all four clauses. -/
theorem forward_first_reply_wins_witness :
    forward_roots_tcp [.connectFail, .reply [5], .connectFail] = ⟨2, some [5], false⟩ ∧
    forward_roots_udp [.ioFail, .reply [6], .reply [9]] = ⟨2, some [6], false⟩ ∧
    (forward_roots_tcp [.connectFail, .sendRecvFail]).relayed = none ∧
    (forward_roots_udp [.ioFail, .ioFail]).relayed = none :=
  ⟨forward_first_reply_wins.1 [.connectFail] [5] [.connectFail] (by decide),
   forward_first_reply_wins.2.1 [.ioFail] [6] [.reply [9]] (by decide),
   forward_first_reply_wins.2.2.1 [.connectFail, .sendRecvFail]
     (by intro t ht r; fin_cases ht <;> simp),
   forward_first_reply_wins.2.2.2 [.ioFail, .ioFail]
     (by intro t ht r; fin_cases ht <;> simp)⟩

/-- C10: with an empty upstream list, both forwarders open no socket, relay
nothing, and return normally with no escaping exception. -/
theorem forward_empty_roots :
    forward_roots_tcp [] = ⟨0, none, false⟩ ∧
    forward_roots_udp [] = ⟨0, none, false⟩ :=
  ⟨rfl, rfl⟩

/-! ### Request Dispatcher: C1, C6, C8 -/

/-- C1: the dispatcher routes on the local-lookup status code alone — on
`(0, d)` with non-empty `d` it performs exactly one `send_data` of `d` and
no forwarding; on `(1, anything)` exactly one `forward_roots` call, passed
the framer-decoded query bytes; on `(2, anything)` no send and no
forwarding. -/
theorem dispatch_routes_on_status (c : Collab) (dl : List String) (q : List Nat)
    (hdl : c.get_denied_types = .ok dl) (hq : c.get_data = .ok q) :
    (∀ d, d ≠ [] → c.dns_response q dl = .ok (0, some d) →
      handle c = .ok [Event.send d]) ∧
    (∀ rd, c.dns_response q dl = .ok (1, rd) →
      handle c = .ok [Event.forward q]) ∧
    (∀ rd, c.dns_response q dl = .ok (2, rd) →
      handle c = .ok []) := by
  refine ⟨?_, ?_, ?_⟩
  · intro d _hd hresp
    cases hs : c.send_data d <;>
      simp [handle, try_body, hdl, hq, hresp, hs]
  · intro rd hresp
    cases hs : c.forward_roots q <;>
      simp [handle, try_body, hdl, hq, hresp, hs]
  · intro rd hresp
    simp [handle, try_body, hdl, hq, hresp]

/-- Collaborator outcomes where the local lookup answers with `[9]`. -/
def collabAnswered : Collab :=
  ⟨.ok [], .ok [1, 2], fun _ _ => .ok (0, some [9]), fun _ => .ok (), fun _ => .ok ()⟩

/-- Collaborator outcomes where the local lookup requests forwarding. -/
def collabForwarded : Collab :=
  ⟨.ok [], .ok [1, 2], fun _ _ => .ok (1, none), fun _ => .ok (), fun _ => .ok ()⟩

/-- Collaborator outcomes where the local lookup blocks the query. -/
def collabBlocked : Collab :=
  ⟨.ok [], .ok [1, 2], fun _ _ => .ok (2, none), fun _ => .ok (), fun _ => .ok ()⟩

/-- C1 (witness): all three routes at concrete collaborator outcomes. -/
theorem dispatch_routes_on_status_witness :
    handle collabAnswered = .ok [Event.send [9]] ∧
    handle collabForwarded = .ok [Event.forward [1, 2]] ∧
    handle collabBlocked = .ok [] :=
  ⟨(dispatch_routes_on_status collabAnswered [] [1, 2] rfl rfl).1 [9] (by decide) rfl,
   (dispatch_routes_on_status collabForwarded [] [1, 2] rfl rfl).2.1 none rfl,
   (dispatch_routes_on_status collabBlocked [] [1, 2] rfl rfl).2.2 none rfl⟩

/-- Collaborator outcomes where the local lookup answers with the EMPTY
byte string (status 0, `retdata = b""`, which is not `None`). -/
def collabEmptyAnswer : Collab :=
  ⟨.ok [], .ok [1], fun _ _ => .ok (0, some []), fun _ => .ok (), fun _ => .ok ()⟩

/-- C6 (counterexample): with status 0 and empty (but not absent) response
bytes, the dispatcher is NOT a no-op: `if retdata is not None` is true for
`b""`, so `send_data` is invoked once with the empty bytes — and on TCP that
transmits the 2-byte zero length header. -/
theorem dispatch_empty_answer_cex :
    handle collabEmptyAnswer = .ok [Event.send []] ∧
    handle collabEmptyAnswer ≠ .ok [] ∧
    send_data_tcp [] = some [0, 0] := by
  refine ⟨rfl, ?_, rfl⟩
  intro h
  have h2 : (Except.ok [Event.send []] : Except Fault (List Event)) = .ok [] := h
  have := Except.ok.inj h2
  simp at this

/-- C6 (amended): status 0 with absent (`None`) response bytes is a no-op
(nothing sent, no error); status 0 with empty response bytes invokes
`send_data` exactly once with the empty byte string (which on TCP transmits
the 2-byte zero length header), still with no error. -/
theorem dispatch_empty_answer_handling (c : Collab) (dl : List String) (q : List Nat)
    (hdl : c.get_denied_types = .ok dl) (hq : c.get_data = .ok q) :
    (c.dns_response q dl = .ok (0, none) → handle c = .ok []) ∧
    (c.dns_response q dl = .ok (0, some []) → handle c = .ok [Event.send []]) ∧
    send_data_tcp [] = some [0, 0] := by
  refine ⟨?_, ?_, rfl⟩
  · intro hresp
    simp [handle, try_body, hdl, hq, hresp]
  · intro hresp
    cases hs : c.send_data [] <;>
      simp [handle, try_body, hdl, hq, hresp, hs]

/-- Collaborator outcomes where the local lookup answers with `None`
response bytes. -/
def collabNoneAnswer : Collab :=
  ⟨.ok [], .ok [1], fun _ _ => .ok (0, none), fun _ => .ok (), fun _ => .ok ()⟩

/-- C6 (amended, witness): the `None` case and the empty-bytes case at
concrete collaborator outcomes. -/
theorem dispatch_empty_answer_handling_witness :
    handle collabNoneAnswer = .ok [] ∧
    handle collabEmptyAnswer = .ok [Event.send []] :=
  ⟨(dispatch_empty_answer_handling collabNoneAnswer [] [1] rfl rfl).1 rfl,
   (dispatch_empty_answer_handling collabEmptyAnswer [] [1] rfl rfl).2.1 rfl⟩

/-- Collaborator outcomes where the access-filter step itself raises
(e.g. a malformed denylist entry fails the `for ip, type in ...` tuple
unpacking, or the config attribute access fails). -/
def collabDenyFault : Collab :=
  ⟨.error (Fault.exc 0), .ok [1], fun _ _ => .ok (0, none), fun _ => .ok (), fun _ => .ok ()⟩

/-- C8 (counterexample): `get_denied_types` runs BEFORE the `try:` block of
`handle`, so a fault raised during the access-filter computation propagates
out of the per-request `handle` entry point instead of being caught. -/
theorem dispatch_deny_fault_escapes_cex :
    handle collabDenyFault = .error (Fault.exc 0) := rfl

/-- C8 (amended): every fault raised inside the `try:` block (framing read,
local lookup, sending, forwarding) is caught at the dispatcher boundary and
the cycle ends normally — in particular a framing fault ends the cycle with
nothing sent — but a fault in the access-filter computation, which runs
before the `try:` block, escapes `handle`. -/
theorem dispatch_fault_boundary :
    (∀ (c : Collab) (dl : List String), c.get_denied_types = .ok dl →
      handle c = .ok (try_body c dl).1) ∧
    (∀ (c : Collab) (dl : List String) (f : Fault), c.get_denied_types = .ok dl →
      c.get_data = .error f → handle c = .ok []) ∧
    (∀ (c : Collab) (f : Fault), c.get_denied_types = .error f →
      handle c = .error f) := by
  refine ⟨?_, ?_, ?_⟩
  · intro c dl h
    simp [handle, h]
  · intro c dl f h hf
    simp [handle, try_body, h, hf]
  · intro c f h
    simp [handle, h]

/-- Collaborator outcomes where the framing read inside the `try` raises. -/
def collabReadFault : Collab :=
  ⟨.ok [], .error (Fault.exc 3), fun _ _ => .ok (0, none), fun _ => .ok (), fun _ => .ok ()⟩

/-- C8 (amended, witness): a swallowed in-`try` fault and an escaping
access-filter fault at concrete collaborator outcomes. -/
theorem dispatch_fault_boundary_witness :
    handle collabReadFault = .ok [] ∧
    handle collabDenyFault = .error (Fault.exc 0) :=
  ⟨dispatch_fault_boundary.2.1 collabReadFault [] (Fault.exc 3) rfl rfl,
   dispatch_fault_boundary.2.2 collabDenyFault (Fault.exc 0) rfl⟩

/-! ### Access Filter: C7 -/

/-- The denylist fold with accumulator `acc` appends exactly the record
types of the matching rules, in rule order. -/
lemma get_denied_types_foldl (ip : String) (l : List (String × String)) (acc : List String) :
    l.foldl (fun ret p => if p.1 = ip then ret ++ [p.2] else ret) acc =
      acc ++ (l.filter (fun p => decide (p.1 = ip))).map Prod.snd := by
  induction l generalizing acc with
  | nil => simp
  | cons p t ih =>
    by_cases h : p.1 = ip
    · simp [List.foldl_cons, List.filter_cons, h, ih]
    · simp [List.foldl_cons, List.filter_cons, h, ih]

/-- C7 (counterexample): for the denylist `[(IP_A, "A"), (IP_A, "A")]` the
result for `IP_A` is the list `["A", "A"]` — the loop appends
unconditionally, so duplicates from overlapping rules do NOT collapse,
refuting the claimed set semantics. -/
theorem denied_types_duplicates_cex :
    get_denied_types "IP_A" [("IP_A", "A"), ("IP_A", "A")] = ["A", "A"] ∧
    ¬ (get_denied_types "IP_A" [("IP_A", "A"), ("IP_A", "A")]).Nodup := by
  refine ⟨rfl, ?_⟩
  rw [show get_denied_types "IP_A" [("IP_A", "A"), ("IP_A", "A")] = ["A", "A"] from rfl]
  decide

/-- C7 (amended): `get_denied_types` returns the LIST of record types of
the rules whose IP field is string-equal to the client IP, in rule order
and with duplicates preserved (a Python list, not a set); its members are
exactly the matching record types, it is empty when no rule matches, and
the spec's two examples hold for this list representation. -/
theorem denied_types_list_spec :
    (∀ (ip : String) (rules : List (String × String)),
      get_denied_types ip rules =
        (rules.filter (fun p => decide (p.1 = ip))).map Prod.snd) ∧
    (∀ (ip : String) (rules : List (String × String)) (t : String),
      t ∈ get_denied_types ip rules ↔ (ip, t) ∈ rules) ∧
    (∀ (ip : String) (rules : List (String × String)),
      (∀ p ∈ rules, p.1 ≠ ip) → get_denied_types ip rules = []) ∧
    get_denied_types "IP_A" [("IP_A", "A"), ("IP_A", "AAAA"), ("IP_B", "MX")] =
      ["A", "AAAA"] ∧
    get_denied_types "IP_C" [("IP_A", "A"), ("IP_A", "AAAA"), ("IP_B", "MX")] = [] := by
  have hmain : ∀ (ip : String) (rules : List (String × String)),
      get_denied_types ip rules =
        (rules.filter (fun p => decide (p.1 = ip))).map Prod.snd := by
    intro ip rules
    unfold get_denied_types
    rw [get_denied_types_foldl]
    simp
  refine ⟨hmain, ?_, ?_, rfl, rfl⟩
  · intro ip rules t
    rw [hmain]
    simp only [List.mem_map, List.mem_filter, decide_eq_true_eq]
    constructor
    · rintro ⟨⟨a, b⟩, ⟨hmem, hfst⟩, hsnd⟩
      dsimp only at hfst hsnd
      subst hfst
      subst hsnd
      exact hmem
    · intro hmem
      exact ⟨(ip, t), ⟨hmem, rfl⟩, rfl⟩
  · intro ip rules h
    rw [hmain]
    have hnil : rules.filter (fun p => decide (p.1 = ip)) = [] := by
      rw [List.filter_eq_nil_iff]
      intro p hp
      simp [h p hp]
    rw [hnil]
    rfl

/-- C7 (amended, witness): the no-match clause at a concrete denylist. -/
theorem denied_types_list_spec_witness :
    get_denied_types "IP_C" [("IP_A", "A"), ("IP_B", "MX")] = [] :=
  denied_types_list_spec.2.2.1 "IP_C" [("IP_A", "A"), ("IP_B", "MX")]
    (by intro p hp; fin_cases hp <;> decide)

end HomeDNS
